import Mathlib

/-!
Shallow embedding of the `DebtManagement` Solidity contract
(`contracts/Debt_FHE.sol`) and proofs about its specification.

Modelling decisions:
* `euint32` ciphertext handles are modelled as a free expression tree `EU32`:
  `FHE.fromExternal` yields an `ext` leaf, `FHE.encrypt` yields an `enc` leaf,
  and the homomorphic operators build nodes.  No evaluation/decryption exists
  in the model, mirroring that the contract never materializes a plaintext.
* The FHE backend primitives the contract consumes (`FHE.isInitialized` over a
  `fromExternal` result, `FHE.checkSignatures`) are a parameter `FHEEnv`.
* Solidity's mapping returns a zero-initialized struct for absent keys, so
  `debtRecords` is a total function with default `defaultRecord` whose
  `debtId` is `""` — exactly the representation the contract's
  `bytes(debtRecords[id].debtId).length == 0` existence test relies on.
* `require` failures revert the whole call: each entry point returns
  `Except DebtError ContractState` and the transaction-level `step`
  keeps the pre-state on error.
* Machine integers: `uint256` arithmetic in `calculateMonthlyPayment` is
  checked (Solidity 0.8 panics at `2 ^ 256`), while the explicit `uint32(...)`
  casts truncate modulo `2 ^ 32` without any check; both are modelled
  explicitly.  `abi.decode(bytes, (uint32))` rejects a word not fitting
  `uint32`, modelled by the `abiDecodeFailure` branch.
-/

namespace DebtFHE

/-- Ciphertext handles (`euint32`) as a free term algebra over the
homomorphic operations used by the contract. `zero` is the
uninitialized default handle of a zeroed storage slot. -/
inductive EU32 where
  | zero : EU32
  | ext : Nat → Nat → EU32
  | enc : Nat → EU32
  | add : EU32 → EU32 → EU32
  | sub : EU32 → EU32 → EU32
  | mul : EU32 → EU32 → EU32
  | div : EU32 → EU32 → EU32
  | exp : EU32 → EU32 → EU32
  deriving DecidableEq

/-- The `DebtRecord` struct of the contract. `decryptedAmount` is a plain
`uint32` (modelled as `Nat`, kept below `2 ^ 32` by the decode step), not an
optional value; it is `0` in a fresh record. -/
structure DebtRecord where
  debtId : String
  encryptedAmount : EU32
  interestRate : Nat
  termMonths : Nat
  owner : Nat
  creationDate : Nat
  decryptedAmount : Nat
  isVerified : Bool
  deriving DecidableEq

/-- The zero-initialized struct Solidity's mapping yields for an absent key. -/
def defaultRecord : DebtRecord :=
  { debtId := ""
    encryptedAmount := EU32.zero
    interestRate := 0
    termMonths := 0
    owner := 0
    creationDate := 0
    decryptedAmount := 0
    isVerified := false }

/-- The two events the contract can emit. -/
inductive Event where
  | debtRecordCreated : String → Nat → Event
  | debtVerification : String → Nat → Event
  deriving DecidableEq

/-- Contract storage plus the emitted event log. -/
structure ContractState where
  debtRecords : String → DebtRecord
  debtIds : List String
  events : List Event

/-- Deployment state: empty mapping, empty id array, no events. -/
def initialState : ContractState :=
  { debtRecords := fun _ => defaultRecord
    debtIds := []
    events := [] }

/-- The FHE backend primitives consumed as black boxes: whether
`FHE.fromExternal` yields an initialized handle, and whether
`FHE.checkSignatures` accepts a (ciphertext, cleartext word, proof) triple. -/
structure FHEEnv where
  isInit : EU32 → Bool
  checkSig : EU32 → Nat → Nat → Bool

/-- Revert reasons of the contract (the four `require` strings), plus the
two EVM-level failures reachable in `verifyDebtAmount` / `calculateMonthlyPayment`:
an `abi.decode` of a word not fitting `uint32`, and checked `uint256` overflow. -/
inductive DebtError where
  | alreadyExists
  | invalidEncryptedAmount
  | doesNotExist
  | alreadyVerified
  | invalidSignatures
  | abiDecodeFailure
  | arithmeticOverflow
  deriving DecidableEq

/-- Projection used to state success/failure of a call without needing
decidable equality of whole states. -/
def callError {α : Type} : Except DebtError α → Option DebtError
  | .error e => some e
  | .ok _ => none

/-- `createDebtRecord` (contract lines 26-52): duplicate check via the stored
`debtId` string being non-empty, backend admission check, insertion with
`decryptedAmount = 0`, `isVerified = false`, push onto `debtIds`, event. -/
def createDebtRecord (env : FHEEnv) (s : ContractState) (debtId : String)
    (encryptedAmount inputProof interestRate termMonths sender now : Nat) :
    Except DebtError ContractState :=
  if (s.debtRecords debtId).debtId ≠ "" then
    .error .alreadyExists
  else if env.isInit (EU32.ext encryptedAmount inputProof) = false then
    .error .invalidEncryptedAmount
  else
    .ok
      { debtRecords := fun k =>
          if k = debtId then
            { debtId := debtId
              encryptedAmount := EU32.ext encryptedAmount inputProof
              interestRate := interestRate
              termMonths := termMonths
              owner := sender
              creationDate := now
              decryptedAmount := 0
              isVerified := false }
          else s.debtRecords k
        debtIds := s.debtIds ++ [debtId]
        events := s.events ++ [Event.debtRecordCreated debtId sender] }

/-- `verifyDebtAmount` (contract lines 54-72): existence check, then the
`isVerified` check (before any signature validation), then
`FHE.checkSignatures` over the stored ciphertext, then `abi.decode` of the
cleartext word as `uint32`, commit of `decryptedAmount` and `isVerified`,
and the disclosure event. -/
def verifyDebtAmount (env : FHEEnv) (s : ContractState) (debtId : String)
    (abiEncodedClearAmount decryptionProof : Nat) :
    Except DebtError ContractState :=
  if (s.debtRecords debtId).debtId = "" then
    .error .doesNotExist
  else if (s.debtRecords debtId).isVerified then
    .error .alreadyVerified
  else if env.checkSig (s.debtRecords debtId).encryptedAmount
      abiEncodedClearAmount decryptionProof = false then
    .error .invalidSignatures
  else if 2 ^ 32 ≤ abiEncodedClearAmount then
    .error .abiDecodeFailure
  else
    .ok
      { debtRecords := fun k =>
          if k = debtId then
            { s.debtRecords debtId with
                decryptedAmount := abiEncodedClearAmount
                isVerified := true }
          else s.debtRecords k
        debtIds := s.debtIds
        events := s.events ++ [Event.debtVerification debtId abiEncodedClearAmount] }

/-- `calculateMonthlyPayment` (contract lines 74-98), a `view` function:
`monthlyRate = interestRate / 12` (integer division), checked `uint256`
multiplications by `1000`, truncating `uint32` casts, and the homomorphic
expression `div (mul amount rate) (sub 1000 (exp (add 1000 rate) (sub 0 months)))`
built over the stored ciphertext. -/
def calculateMonthlyPayment (s : ContractState) (debtId : String) :
    Except DebtError EU32 :=
  if (s.debtRecords debtId).debtId = "" then
    .error .doesNotExist
  else
    let monthlyRate := (s.debtRecords debtId).interestRate / 12
    let months := (s.debtRecords debtId).termMonths
    if 2 ^ 256 ≤ monthlyRate * 1000 then
      .error .arithmeticOverflow
    else if 2 ^ 256 ≤ months * 1000 then
      .error .arithmeticOverflow
    else
      let fixedRate := monthlyRate * 1000 % 2 ^ 32
      let fixedMonths := months * 1000 % 2 ^ 32
      let rateFactor := EU32.enc fixedRate
      let monthFactor := EU32.enc fixedMonths
      let numerator := EU32.mul (s.debtRecords debtId).encryptedAmount rateFactor
      let denominator := EU32.sub (EU32.enc 1000)
        (EU32.exp (EU32.add (EU32.enc 1000) rateFactor)
          (EU32.sub (EU32.enc 0) monthFactor))
      .ok (EU32.div numerator denominator)

/-- The 7-tuple `getDebtRecord` returns, as a structure. -/
structure DebtView where
  debtId : String
  interestRate : Nat
  termMonths : Nat
  owner : Nat
  creationDate : Nat
  isVerified : Bool
  decryptedAmount : Nat
  deriving DecidableEq

/-- `getDebtRecord` (contract lines 100-121): existence check, then
unconditionally returns all plaintext fields including `decryptedAmount`. -/
def getDebtRecord (s : ContractState) (debtId : String) :
    Except DebtError DebtView :=
  if (s.debtRecords debtId).debtId = "" then
    .error .doesNotExist
  else
    .ok
      { debtId := (s.debtRecords debtId).debtId
        interestRate := (s.debtRecords debtId).interestRate
        termMonths := (s.debtRecords debtId).termMonths
        owner := (s.debtRecords debtId).owner
        creationDate := (s.debtRecords debtId).creationDate
        isVerified := (s.debtRecords debtId).isVerified
        decryptedAmount := (s.debtRecords debtId).decryptedAmount }

/-- `getAllDebtIds` (contract lines 123-125): returns the `debtIds` array. -/
def getAllDebtIds (s : ContractState) : List String :=
  s.debtIds

/-- `isAvailable` (contract lines 127-129). -/
def isAvailable : Bool :=
  true

/-- One external call to the contract, with all its arguments. -/
inductive Op where
  | create (debtId : String) (encryptedAmount inputProof interestRate termMonths sender now : Nat)
  | verify (debtId : String) (clearAmount proof : Nat)
  | payment (debtId : String)
  | query (debtId : String)
  | listAll

/-- Transaction semantics of one call: a reverted call leaves storage
unchanged; `view` functions never touch storage. -/
def step (env : FHEEnv) (op : Op) (s : ContractState) : ContractState :=
  match op with
  | .create d e q r t o n =>
      match createDebtRecord env s d e q r t o n with
      | .ok s' => s'
      | .error _ => s
  | .verify d v p =>
      match verifyDebtAmount env s d v p with
      | .ok s' => s'
      | .error _ => s
  | .payment _ => s
  | .query _ => s
  | .listAll => s

/-- A whole sequence of calls. -/
def stepList (env : FHEEnv) (ops : List Op) (s : ContractState) : ContractState :=
  ops.foldl (fun t op => step env op t) s

/-- A backend accepting every admission proof and every decryption proof,
used for concrete scenarios. -/
def envAll : FHEEnv :=
  { isInit := fun _ => true
    checkSig := fun _ _ _ => true }

/-- A backend rejecting every decryption proof, used to exercise paths that
must not depend on proof validity. -/
def envNoSig : FHEEnv :=
  { isInit := fun _ => true
    checkSig := fun _ _ _ => false }

/-- State after `createDebtRecord("d1", cipher, proof, 12, 24)` from sender 5. -/
def sD1 : ContractState :=
  step envAll (Op.create "d1" 7 3 12 24 5 100) initialState

/-- State after additionally verifying `"d1"` with cleartext `1000`. -/
def sD1v : ContractState :=
  step envAll (Op.verify "d1" 1000 9) sD1

/-- State after one `createDebtRecord` call with the empty-string id. -/
def sEmpty1 : ContractState :=
  step envAll (Op.create "" 7 1 12 24 5 100) initialState

/-- State after `createDebtRecord("o", …)` with annual rate `60000000`,
whose monthly fixed-point scaling `(60000000 / 12) * 1000 = 5000000000`
exceeds `2 ^ 32 - 1`. -/
def sOver : ContractState :=
  step envAll (Op.create "o" 1 1 60000000 24 5 100) initialState

/-- State after `createDebtRecord("h", …)` with an annual rate so large that
the checked `uint256` multiplication `monthlyRate * 1000` reaches `2 ^ 256`. -/
def sHuge : ContractState :=
  step envAll (Op.create "h" 1 1 (12 * 2 ^ 256) 24 5 100) initialState

/-- State after creating `"a"`, `"b"`, `"c"` in that order. -/
def sABC : ContractState :=
  stepList envAll
    [Op.create "a" 1 1 10 12 5 100, Op.create "b" 2 2 11 13 6 101,
     Op.create "c" 3 3 12 14 7 102] initialState

/-- State with an unverified record `"z"`. -/
def sZu : ContractState :=
  step envAll (Op.create "z" 4 4 10 12 5 100) initialState

/-- State after verifying `"z"` with cleartext value `0`. -/
def sZv : ContractState :=
  step envAll (Op.verify "z" 0 7) sZu

/- ### Helper lemmas -/

theorem stepList_cons (env : FHEEnv) (op : Op) (ops : List Op) (s : ContractState) :
    stepList env (op :: ops) s = stepList env ops (step env op s) :=
  rfl

/-- Inversion: what a successful `createDebtRecord` produced. -/
theorem createDebtRecord_ok_shape (env : FHEEnv) (s : ContractState) (d : String)
    (e q r t o n : Nat) (s' : ContractState)
    (h : createDebtRecord env s d e q r t o n = .ok s') :
    (s.debtRecords d).debtId = "" ∧
    env.isInit (EU32.ext e q) = true ∧
    s'.debtRecords = (fun k =>
      if k = d then
        { debtId := d
          encryptedAmount := EU32.ext e q
          interestRate := r
          termMonths := t
          owner := o
          creationDate := n
          decryptedAmount := 0
          isVerified := false }
      else s.debtRecords k) ∧
    s'.debtIds = s.debtIds ++ [d] ∧
    s'.events = s.events ++ [Event.debtRecordCreated d o] := by
  unfold createDebtRecord at h
  split at h
  · exact absurd h (by simp)
  · rename_i hd
    split at h
    · exact absurd h (by simp)
    · rename_i hinit
      cases h
      refine ⟨by simpa using hd, by simpa using hinit, rfl, rfl, rfl⟩

/-- Inversion: what a successful `verifyDebtAmount` produced. -/
theorem verifyDebtAmount_ok_shape (env : FHEEnv) (s : ContractState) (d : String)
    (v p : Nat) (s' : ContractState)
    (h : verifyDebtAmount env s d v p = .ok s') :
    (s.debtRecords d).debtId ≠ "" ∧
    (s.debtRecords d).isVerified = false ∧
    env.checkSig (s.debtRecords d).encryptedAmount v p = true ∧
    v < 2 ^ 32 ∧
    s'.debtRecords = (fun k =>
      if k = d then
        { s.debtRecords d with decryptedAmount := v, isVerified := true }
      else s.debtRecords k) ∧
    s'.debtIds = s.debtIds ∧
    s'.events = s.events ++ [Event.debtVerification d v] := by
  unfold verifyDebtAmount at h
  split at h
  · exact absurd h (by simp)
  · rename_i hd
    split at h
    · exact absurd h (by simp)
    · rename_i hv
      split at h
      · exact absurd h (by simp)
      · rename_i hs
        split at h
        · exact absurd h (by simp)
        · rename_i hb
          cases h
          exact ⟨hd, by simpa using hv, by simpa using hs, by omega, rfl, rfl, rfl⟩

/-- One call preserves the stored `debtId` and `encryptedAmount` of any key
whose stored `debtId` is non-empty. -/
theorem step_preserves_created (env : FHEEnv) (op : Op) (s : ContractState)
    (id : String) (hex : (s.debtRecords id).debtId ≠ "") :
    ((step env op s).debtRecords id).debtId = (s.debtRecords id).debtId ∧
    ((step env op s).debtRecords id).encryptedAmount = (s.debtRecords id).encryptedAmount := by
  cases op with
  | create d e q r t o n =>
      cases hres : createDebtRecord env s d e q r t o n with
      | error e' => simp [step, hres]
      | ok s' =>
          obtain ⟨hd, -, hrec, -, -⟩ := createDebtRecord_ok_shape env s d e q r t o n s' hres
          have hne : id ≠ d := fun h => hex (h ▸ hd)
          simp [step, hres, hrec, hne]
  | verify d v p =>
      cases hres : verifyDebtAmount env s d v p with
      | error e' => simp [step, hres]
      | ok s' =>
          obtain ⟨-, -, -, -, hrec, -, -⟩ := verifyDebtAmount_ok_shape env s d v p s' hres
          by_cases hne : id = d
          · subst hne; simp [step, hres, hrec]
          · simp [step, hres, hrec, hne]
  | payment d => exact ⟨rfl, rfl⟩
  | query d => exact ⟨rfl, rfl⟩
  | listAll => exact ⟨rfl, rfl⟩

/-- The stored `debtId` under any key is either that key or empty; one call
preserves this. -/
theorem step_debtId_cases (env : FHEEnv) (op : Op) (s : ContractState) (k : String)
    (h : (s.debtRecords k).debtId = k ∨ (s.debtRecords k).debtId = "") :
    ((step env op s).debtRecords k).debtId = k ∨
    ((step env op s).debtRecords k).debtId = "" := by
  cases op with
  | create d e q r t o n =>
      cases hres : createDebtRecord env s d e q r t o n with
      | error e' => simpa [step, hres] using h
      | ok s' =>
          obtain ⟨-, -, hrec, -, -⟩ := createDebtRecord_ok_shape env s d e q r t o n s' hres
          by_cases hk : k = d
          · subst hk; left; simp [step, hres, hrec]
          · simpa [step, hres, hrec, hk] using h
  | verify d v p =>
      cases hres : verifyDebtAmount env s d v p with
      | error e' => simpa [step, hres] using h
      | ok s' =>
          obtain ⟨-, -, -, -, hrec, -, -⟩ := verifyDebtAmount_ok_shape env s d v p s' hres
          by_cases hk : k = d
          · subst hk; simpa [step, hres, hrec] using h
          · simpa [step, hres, hrec, hk] using h
  | payment d => exact h
  | query d => exact h
  | listAll => exact h

/-- In every reachable state, the record stored under a key has that key
(or the empty string) as its `debtId` field. -/
theorem stored_debtId_cases (env : FHEEnv) (ops : List Op) (k : String) :
    ((stepList env ops initialState).debtRecords k).debtId = k ∨
    ((stepList env ops initialState).debtRecords k).debtId = "" := by
  suffices H : ∀ s, (s.debtRecords k).debtId = k ∨ (s.debtRecords k).debtId = "" →
      ((stepList env ops s).debtRecords k).debtId = k ∨
      ((stepList env ops s).debtRecords k).debtId = "" by
    exact H initialState (Or.inr rfl)
  induction ops with
  | nil => intro s h; exact h
  | cons op ops ih =>
      intro s h
      rw [stepList_cons]
      exact ih (step env op s) (step_debtId_cases env op s k h)

/- ### Claim theorems -/

/-- C1, counterexample: for the empty-string id the claim fails. After a
record for `""` has been created (`sEmpty1`), a second `createDebtRecord`
with id `""` does not fail with the duplicate-record error — it succeeds,
and afterwards `""` is listed twice in the id array, so the registry does
not still contain exactly one record for `""`. -/
theorem createDebtRecord_duplicate_cex :
    callError (createDebtRecord envAll sEmpty1 "" 8 2 6 36 9 200) = none ∧
    (step envAll (Op.create "" 8 2 6 36 9 200) sEmpty1).debtIds = ["", ""] ∧
    (sEmpty1.debtIds = [""] ∧ (sEmpty1.debtRecords "").owner = 5) := by
  exact ⟨rfl, rfl, rfl, rfl⟩

/-- C1 (amended to non-empty ids, equivalently to records whose stored
`debtId` field is non-empty — the contract's own presence test): when the
record stored under id `x` has a non-empty `debtId`, `createDebtRecord`
fails with the duplicate-record error, the transaction leaves the state
unchanged, so the registry still holds the original record for `x`,
unchanged, and the number of occurrences of `x` in the id array is
unchanged. -/
theorem createDebtRecord_duplicate (env : FHEEnv) (s : ContractState) (x : String)
    (e q r t o n : Nat) (hx : (s.debtRecords x).debtId ≠ "") :
    createDebtRecord env s x e q r t o n = Except.error DebtError.alreadyExists ∧
    step env (Op.create x e q r t o n) s = s ∧
    (getAllDebtIds (step env (Op.create x e q r t o n) s)).count x =
      (getAllDebtIds s).count x ∧
    (step env (Op.create x e q r t o n) s).debtRecords x = s.debtRecords x := by
  have herr : createDebtRecord env s x e q r t o n = .error .alreadyExists := by
    unfold createDebtRecord
    rw [if_pos hx]
  refine ⟨herr, ?_, ?_, ?_⟩ <;> simp [step, herr]

/-- Witness for C1 at a concrete input: after creating `"d1"` once, a second
create fails, the state is untouched, and `"d1"` is listed exactly once. -/
theorem createDebtRecord_duplicate_witness :
    (sD1.debtRecords "d1").debtId ≠ "" ∧
    (createDebtRecord envAll sD1 "d1" 8 2 6 36 9 200 =
        Except.error DebtError.alreadyExists ∧
      step envAll (Op.create "d1" 8 2 6 36 9 200) sD1 = sD1 ∧
      (getAllDebtIds (step envAll (Op.create "d1" 8 2 6 36 9 200) sD1)).count "d1" =
        (getAllDebtIds sD1).count "d1" ∧
      (step envAll (Op.create "d1" 8 2 6 36 9 200) sD1).debtRecords "d1" =
        sD1.debtRecords "d1") ∧
    (getAllDebtIds sD1).count "d1" = 1 :=
  ⟨by decide, createDebtRecord_duplicate envAll sD1 "d1" 8 2 6 36 9 200 (by decide),
    by decide⟩

/-- C2: on a record whose `verified` flag is true, `verifyDebtAmount` fails
with the already-verified error for every backend `env` — in particular for
a backend rejecting every proof, so no proof validation is consulted — the
transaction leaves the state unchanged, `decryptedAmount` keeps its
committed value, and no further disclosure event is emitted. -/
theorem verifyDebtAmount_alreadyVerified (env : FHEEnv) (s : ContractState)
    (id : String) (v p : Nat)
    (hex : (s.debtRecords id).debtId ≠ "")
    (hver : (s.debtRecords id).isVerified = true) :
    verifyDebtAmount env s id v p = Except.error DebtError.alreadyVerified ∧
    step env (Op.verify id v p) s = s ∧
    ((step env (Op.verify id v p) s).debtRecords id).decryptedAmount =
      (s.debtRecords id).decryptedAmount ∧
    (step env (Op.verify id v p) s).events = s.events := by
  have herr : verifyDebtAmount env s id v p = .error .alreadyVerified := by
    unfold verifyDebtAmount
    rw [if_neg hex, if_pos hver]
  refine ⟨herr, ?_, ?_, ?_⟩ <;> simp [step, herr]

/-- Witness for C2: `"d1"` verified with `1000`; the repeated call uses a
backend rejecting all proofs, yet still fails already-verified and keeps
`decryptedAmount = 1000`. -/
theorem verifyDebtAmount_alreadyVerified_witness :
    (sD1v.debtRecords "d1").debtId ≠ "" ∧
    (sD1v.debtRecords "d1").isVerified = true ∧
    (verifyDebtAmount envNoSig sD1v "d1" 555 0 =
        Except.error DebtError.alreadyVerified ∧
      step envNoSig (Op.verify "d1" 555 0) sD1v = sD1v ∧
      ((step envNoSig (Op.verify "d1" 555 0) sD1v).debtRecords "d1").decryptedAmount =
        (sD1v.debtRecords "d1").decryptedAmount ∧
      (step envNoSig (Op.verify "d1" 555 0) sD1v).events = sD1v.events) ∧
    (sD1v.debtRecords "d1").decryptedAmount = 1000 :=
  ⟨by decide, by decide,
    verifyDebtAmount_alreadyVerified envNoSig sD1v "d1" 555 0 (by decide) (by decide),
    by decide⟩

/-- C5, counterexample: the `encryptedAmount` of the record created under
the empty-string id is replaced by a later `createDebtRecord` call with the
same id, so it does not stay unchanged under all subsequent operations. -/
theorem encryptedAmount_immutable_cex :
    (sEmpty1.debtRecords "").encryptedAmount = EU32.ext 7 1 ∧
    ((stepList envAll [Op.create "" 8 2 6 36 9 200] sEmpty1).debtRecords "").encryptedAmount =
      EU32.ext 8 2 ∧
    EU32.ext 8 2 ≠ EU32.ext 7 1 := by
  exact ⟨rfl, rfl, by decide⟩

/-- C5 (amended to records whose stored `debtId` is non-empty, i.e. every
record except the one under the empty-string id): once such a record
exists, its `encryptedAmount` handle is unchanged by any subsequent
sequence of contract calls. -/
theorem encryptedAmount_immutable (env : FHEEnv) (s : ContractState) (id : String)
    (ops : List Op) (hex : (s.debtRecords id).debtId ≠ "") :
    ((stepList env ops s).debtRecords id).encryptedAmount =
      (s.debtRecords id).encryptedAmount := by
  induction ops generalizing s with
  | nil => rfl
  | cons op ops ih =>
      rw [stepList_cons]
      have h := step_preserves_created env op s id hex
      have hex' : ((step env op s).debtRecords id).debtId ≠ "" := by
        rw [h.1]; exact hex
      rw [ih (step env op s) hex', h.2]

/-- Witness for C5: the handle of `"d1"` survives an interleaving of
verification, duplicate creation, payment computation and an unrelated
creation. -/
theorem encryptedAmount_immutable_witness :
    (sD1.debtRecords "d1").debtId ≠ "" ∧
    ((stepList envAll
        [Op.verify "d1" 1000 9, Op.create "d1" 8 8 1 2 3 4,
         Op.payment "d1", Op.create "x" 1 1 1 1 1 1, Op.listAll]
        sD1).debtRecords "d1").encryptedAmount =
      (sD1.debtRecords "d1").encryptedAmount ∧
    (sD1.debtRecords "d1").encryptedAmount = EU32.ext 7 3 :=
  ⟨by decide,
    encryptedAmount_immutable envAll sD1 "d1"
      [Op.verify "d1" 1000 9, Op.create "d1" 8 8 1 2 3 4,
       Op.payment "d1", Op.create "x" 1 1 1 1 1 1, Op.listAll] (by decide),
    by decide⟩

/-- C9: record existence is decided by the stored `debtId` string being
non-empty, so for the empty-string id — whose stored `debtId` is `""` in
every reachable state — `createDebtRecord` never fails with the
duplicate-record error; when the backend admits the ciphertext, the call
overwrites the stored record (including its `encryptedAmount`, which
becomes the new handle) and appends `""` to the id list a second time. -/
theorem createDebtRecord_emptyId (env env' : FHEEnv) (ops : List Op)
    (e q r t o n : Nat) :
    createDebtRecord env (stepList env' ops initialState) "" e q r t o n ≠
      Except.error DebtError.alreadyExists ∧
    (env.isInit (EU32.ext e q) = true →
      ((step env (Op.create "" e q r t o n) (stepList env' ops initialState)).debtRecords
          "").encryptedAmount = EU32.ext e q ∧
      ((step env (Op.create "" e q r t o n) (stepList env' ops initialState)).debtRecords
          "").owner = o ∧
      (step env (Op.create "" e q r t o n) (stepList env' ops initialState)).debtIds =
        (stepList env' ops initialState).debtIds ++ [""]) := by
  have h0 : ((stepList env' ops initialState).debtRecords "").debtId = "" := by
    rcases stored_debtId_cases env' ops "" with h | h <;> exact h
  constructor
  · unfold createDebtRecord
    rw [if_neg (by simp [h0])]
    split
    · simp
    · simp
  · intro hinit
    have hok : createDebtRecord env (stepList env' ops initialState) "" e q r t o n =
        .ok
          { debtRecords := fun k =>
              if k = "" then
                { debtId := ""
                  encryptedAmount := EU32.ext e q
                  interestRate := r
                  termMonths := t
                  owner := o
                  creationDate := n
                  decryptedAmount := 0
                  isVerified := false }
              else (stepList env' ops initialState).debtRecords k
            debtIds := (stepList env' ops initialState).debtIds ++ [""]
            events := (stepList env' ops initialState).events ++
              [Event.debtRecordCreated "" o] } := by
      unfold createDebtRecord
      rw [if_neg (by simp [h0]), if_neg (by simp [hinit])]
    refine ⟨?_, ?_, ?_⟩ <;> simp [step, hok]

/-- Witness for C9: on the reachable state holding a record for `""`, a
second create of `""` does not fail duplicate, replaces the stored handle
and appends `""` again. -/
theorem createDebtRecord_emptyId_witness :
    createDebtRecord envAll
        (stepList envAll [Op.create "" 7 1 12 24 5 100] initialState)
        "" 8 2 6 36 9 200 ≠
      Except.error DebtError.alreadyExists ∧
    ((step envAll (Op.create "" 8 2 6 36 9 200)
        (stepList envAll [Op.create "" 7 1 12 24 5 100] initialState)).debtRecords
        "").encryptedAmount = EU32.ext 8 2 ∧
    ((step envAll (Op.create "" 8 2 6 36 9 200)
        (stepList envAll [Op.create "" 7 1 12 24 5 100] initialState)).debtRecords
        "").owner = 9 ∧
    (step envAll (Op.create "" 8 2 6 36 9 200)
        (stepList envAll [Op.create "" 7 1 12 24 5 100] initialState)).debtIds =
      (stepList envAll [Op.create "" 7 1 12 24 5 100] initialState).debtIds ++ [""] :=
  have h := createDebtRecord_emptyId envAll envAll
    [Op.create "" 7 1 12 24 5 100] 8 2 6 36 9 200
  ⟨h.1, (h.2 rfl).1, (h.2 rfl).2.1, (h.2 rfl).2.2⟩

/-- C3, counterexample: for the record `"o"` with annual rate `60000000`,
the fixed-point scaling is `(60000000 / 12) * 1000 = 5000000000`, but the
rate factor actually encrypted into the returned expression is
`5000000000 % 2 ^ 32 = 705032704` — the truncating `uint32` cast, not the
claimed exact scaled value. -/
theorem calculateMonthlyPayment_formula_cex :
    calculateMonthlyPayment sOver "o" =
      Except.ok (EU32.div
        (EU32.mul (EU32.ext 1 1) (EU32.enc 705032704))
        (EU32.sub (EU32.enc 1000)
          (EU32.exp (EU32.add (EU32.enc 1000) (EU32.enc 705032704))
            (EU32.sub (EU32.enc 0) (EU32.enc 24000))))) ∧
    (sOver.debtRecords "o").interestRate / 12 * 1000 = 5000000000 ∧
    (705032704 : Nat) ≠ 5000000000 := by
  exact ⟨rfl, rfl, by decide⟩

/-- C3 (amended: the scaled factors are the truncating `uint32` casts
`rateFixed = ((interestRateAnnual / 12) * 1000) % 2 ^ 32` and
`termFixed = (termMonths * 1000) % 2 ^ 32`, and the base of the power is
the fixed-point unit `1000` plus `rateFixed`): for every existing record
whose `uint256` products do not panic, the result is exactly the
homomorphic expression `numerator / (1000 - (1000 + rateFixed) ^ (0 - termFixed))`
with `numerator` the stored ciphertext homomorphically multiplied by
`rateFixed`; the stored ciphertext enters only homomorphic nodes and no
plaintext of it is ever produced (the codomain is the ciphertext algebra). -/
theorem calculateMonthlyPayment_formula (s : ContractState) (id : String)
    (hex : (s.debtRecords id).debtId ≠ "")
    (hr : (s.debtRecords id).interestRate / 12 * 1000 < 2 ^ 256)
    (ht : (s.debtRecords id).termMonths * 1000 < 2 ^ 256) :
    calculateMonthlyPayment s id =
      Except.ok (EU32.div
        (EU32.mul (s.debtRecords id).encryptedAmount
          (EU32.enc ((s.debtRecords id).interestRate / 12 * 1000 % 2 ^ 32)))
        (EU32.sub (EU32.enc 1000)
          (EU32.exp
            (EU32.add (EU32.enc 1000)
              (EU32.enc ((s.debtRecords id).interestRate / 12 * 1000 % 2 ^ 32)))
            (EU32.sub (EU32.enc 0)
              (EU32.enc ((s.debtRecords id).termMonths * 1000 % 2 ^ 32)))))) := by
  simp only [calculateMonthlyPayment]
  rw [if_neg hex, if_neg (not_le.mpr hr), if_neg (not_le.mpr ht)]

/-- Witness for C3: the spec's round-trip record (`rate 12`, `term 24`)
yields `rateFixed = 1000`, `termFixed = 24000` and the full expression. -/
theorem calculateMonthlyPayment_formula_witness :
    (sD1.debtRecords "d1").debtId ≠ "" ∧
    calculateMonthlyPayment sD1 "d1" =
      Except.ok (EU32.div
        (EU32.mul (EU32.ext 7 3) (EU32.enc 1000))
        (EU32.sub (EU32.enc 1000)
          (EU32.exp (EU32.add (EU32.enc 1000) (EU32.enc 1000))
            (EU32.sub (EU32.enc 0) (EU32.enc 24000))))) :=
  ⟨by decide,
    calculateMonthlyPayment_formula sD1 "d1" (by decide) (by decide) (by decide)⟩

/-- C4: on an existing, unverified record, a `verifyDebtAmount` call whose
proof passes the committee check and whose cleartext word decodes as
`uint32` succeeds, stores the decoded cleartext into `decryptedAmount`,
sets `verified`, emits exactly one disclosure event carrying the id and
cleartext, and `getDebtRecord` afterwards returns the verified flag, the
committed amount and the unchanged rate and term. -/
theorem verifyDebtAmount_success (env : FHEEnv) (s : ContractState) (id : String)
    (v p : Nat)
    (hex : (s.debtRecords id).debtId ≠ "")
    (hnv : (s.debtRecords id).isVerified = false)
    (hsig : env.checkSig (s.debtRecords id).encryptedAmount v p = true)
    (hv : v < 2 ^ 32) :
    callError (verifyDebtAmount env s id v p) = none ∧
    ((step env (Op.verify id v p) s).debtRecords id).decryptedAmount = v ∧
    ((step env (Op.verify id v p) s).debtRecords id).isVerified = true ∧
    ((step env (Op.verify id v p) s).debtRecords id).encryptedAmount =
      (s.debtRecords id).encryptedAmount ∧
    (step env (Op.verify id v p) s).events =
      s.events ++ [Event.debtVerification id v] ∧
    getDebtRecord (step env (Op.verify id v p) s) id =
      Except.ok
        { debtId := (s.debtRecords id).debtId
          interestRate := (s.debtRecords id).interestRate
          termMonths := (s.debtRecords id).termMonths
          owner := (s.debtRecords id).owner
          creationDate := (s.debtRecords id).creationDate
          isVerified := true
          decryptedAmount := v } := by
  have hok : verifyDebtAmount env s id v p =
      .ok
        { debtRecords := fun k =>
            if k = id then
              { s.debtRecords id with decryptedAmount := v, isVerified := true }
            else s.debtRecords k
          debtIds := s.debtIds
          events := s.events ++ [Event.debtVerification id v] } := by
    unfold verifyDebtAmount
    rw [if_neg hex, if_neg (by simp [hnv]), if_neg (by simp [hsig]),
      if_neg (not_le.mpr hv)]
  refine ⟨?_, ?_, ?_, ?_, ?_, ?_⟩ <;>
    simp [step, hok, callError, getDebtRecord, hex]

/-- Witness for C4, the spec's round trip: create `"d1"` with rate `12`,
term `24`, then verify with cleartext `1000`; `getDebtRecord` returns
`verified = true`, `decryptedAmount = 1000`, rate `12`, term `24`. -/
theorem verifyDebtAmount_success_witness :
    callError (verifyDebtAmount envAll sD1 "d1" 1000 9) = none ∧
    (sD1v.debtRecords "d1").decryptedAmount = 1000 ∧
    (sD1v.debtRecords "d1").isVerified = true ∧
    (sD1v.debtRecords "d1").encryptedAmount = (sD1.debtRecords "d1").encryptedAmount ∧
    sD1v.events = sD1.events ++ [Event.debtVerification "d1" 1000] ∧
    getDebtRecord sD1v "d1" =
      Except.ok
        { debtId := "d1"
          interestRate := 12
          termMonths := 24
          owner := 5
          creationDate := 100
          isVerified := true
          decryptedAmount := 1000 } :=
  verifyDebtAmount_success envAll sD1 "d1" 1000 9 (by decide) (by decide)
    (by decide) (by decide)

/-- C6, counterexample: for the record `"o"` the scaled rate
`(60000000 / 12) * 1000 = 5000000000` exceeds the `uint32` range, yet
`calculateMonthlyPayment` reports no failure at all — there is no
`NumericOverflow` check; the cast silently truncates. -/
theorem monthlyPayment_overflow_cex :
    callError (calculateMonthlyPayment sOver "o") = none ∧
    (sOver.debtRecords "o").interestRate / 12 * 1000 = 5000000000 ∧
    2 ^ 32 ≤ 5000000000 := by
  exact ⟨rfl, rfl, by decide⟩

/-- C6 (amended): `calculateMonthlyPayment` raises no overflow failure when
the fixed-point scaling of rate or term exceeds the `uint32` range — the
`uint32(...)` casts silently truncate modulo `2 ^ 32` and the call succeeds
for every existing record as long as the `uint256` products stay below
`2 ^ 256`; only at `2 ^ 256` does the checked `uint256` multiplication
abort (an arithmetic panic, not a typed `NumericOverflow`). -/
theorem monthlyPayment_no_overflow_error (s : ContractState) (id : String)
    (hex : (s.debtRecords id).debtId ≠ "") :
    ((s.debtRecords id).interestRate / 12 * 1000 < 2 ^ 256 →
      (s.debtRecords id).termMonths * 1000 < 2 ^ 256 →
      callError (calculateMonthlyPayment s id) = none) ∧
    (2 ^ 256 ≤ (s.debtRecords id).interestRate / 12 * 1000 →
      calculateMonthlyPayment s id = Except.error DebtError.arithmeticOverflow) := by
  constructor
  · intro hr ht
    simp only [calculateMonthlyPayment]
    rw [if_neg hex, if_neg (not_le.mpr hr), if_neg (not_le.mpr ht)]
    rfl
  · intro hr
    simp only [calculateMonthlyPayment]
    rw [if_neg hex, if_pos hr]

/-- Witness for C6: the `uint32`-overflowing record `"o"` computes without
failure, while a record whose scaled rate reaches `2 ^ 256` panics. -/
theorem monthlyPayment_no_overflow_error_witness :
    callError (calculateMonthlyPayment sOver "o") = none ∧
    2 ^ 32 ≤ (sOver.debtRecords "o").interestRate / 12 * 1000 ∧
    calculateMonthlyPayment sHuge "h" = Except.error DebtError.arithmeticOverflow :=
  ⟨(monthlyPayment_no_overflow_error sOver "o" (by decide)).1 (by decide) (by decide),
    by decide,
    (monthlyPayment_no_overflow_error sHuge "h" (by decide)).2 (by decide)⟩

/-- C7: `getAllDebtIds` lists ids in insertion order — after creating
`"a"`, `"b"`, `"c"` it is exactly `["a", "b", "c"]` — and any
`verifyDebtAmount` call (on any state, any arguments, succeeding or not)
leaves it unchanged, also when interleaved between the creations; being a
pure function of the state, repeated calls return the same fresh list. -/
theorem getAllDebtIds_insertion_order (env : FHEEnv) (s : ContractState)
    (id : String) (v p : Nat) :
    getAllDebtIds sABC = ["a", "b", "c"] ∧
    getAllDebtIds (step env (Op.verify id v p) s) = getAllDebtIds s ∧
    getAllDebtIds (stepList envAll
      [Op.create "a" 1 1 10 12 5 100, Op.verify "a" 500 9,
       Op.create "b" 2 2 11 13 6 101, Op.verify "b" 600 9,
       Op.create "c" 3 3 12 14 7 102] initialState) = ["a", "b", "c"] := by
  refine ⟨rfl, ?_, rfl⟩
  cases hres : verifyDebtAmount env s id v p with
  | error e' => simp [step, hres, getAllDebtIds]
  | ok s' =>
      obtain ⟨-, -, -, -, -, hids, -⟩ := verifyDebtAmount_ok_shape env s id v p s' hres
      simp [step, hres, getAllDebtIds, hids]

/-- C8: `calculateMonthlyPayment` is read-only — it fails with the
does-not-exist error on an unknown id and the transaction never changes the
state — and a successful `verifyDebtAmount` changes only `decryptedAmount`
and `isVerified`, so `calculateMonthlyPayment` on any id returns the
identical ciphertext expression before and after the verification. -/
theorem calculateMonthlyPayment_readonly (env : FHEEnv) (s s' : ContractState)
    (id y : String) (v p : Nat) :
    ((s.debtRecords y).debtId = "" →
      calculateMonthlyPayment s y = Except.error DebtError.doesNotExist) ∧
    step env (Op.payment y) s = s ∧
    (verifyDebtAmount env s id v p = Except.ok s' →
      calculateMonthlyPayment s' y = calculateMonthlyPayment s y) := by
  refine ⟨?_, rfl, ?_⟩
  · intro h
    simp only [calculateMonthlyPayment]
    rw [if_pos h]
  · intro h
    obtain ⟨-, -, -, -, hrec, -, -⟩ := verifyDebtAmount_ok_shape env s id v p s' h
    by_cases hy : y = id
    · subst hy
      simp only [calculateMonthlyPayment, hrec]
      simp
    · simp only [calculateMonthlyPayment, hrec]
      simp [hy]

/-- Witness for C8: an unknown id fails, the payment transaction is a
no-op, and the payment for `"d1"` is unchanged by its verification. -/
theorem calculateMonthlyPayment_readonly_witness :
    calculateMonthlyPayment sD1 "zz" = Except.error DebtError.doesNotExist ∧
    step envAll (Op.payment "zz") sD1 = sD1 ∧
    calculateMonthlyPayment sD1v "d1" = calculateMonthlyPayment sD1 "d1" :=
  ⟨(calculateMonthlyPayment_readonly envAll sD1 sD1v "d1" "zz" 1000 9).1 (by decide),
    (calculateMonthlyPayment_readonly envAll sD1 sD1v "d1" "zz" 1000 9).2.1,
    (calculateMonthlyPayment_readonly envAll sD1 sD1v "d1" "d1" 1000 9).2.2 rfl⟩

/-- C10: `decryptedAmount` is a plain unsigned integer (`Nat` in the model,
`uint32` in the contract), set to `0` in every freshly created record
rather than being absent, and `getDebtRecord` returns it unconditionally
for every existing record; the concrete pair of states — `"z"` unverified
versus `"z"` verified with cleartext `0` — agree on `decryptedAmount` and
differ only in the returned `verified` flag. -/
theorem decryptedAmount_plain_zero (env : FHEEnv) (s : ContractState) (id : String)
    (e q r t o n : Nat)
    (hnew : (s.debtRecords id).debtId = "")
    (hinit : env.isInit (EU32.ext e q) = true) :
    ((step env (Op.create id e q r t o n) s).debtRecords id).decryptedAmount = 0 ∧
    ((step env (Op.create id e q r t o n) s).debtRecords id).isVerified = false ∧
    (∀ s2 y, (s2.debtRecords y).debtId ≠ "" →
      getDebtRecord s2 y = Except.ok
        { debtId := (s2.debtRecords y).debtId
          interestRate := (s2.debtRecords y).interestRate
          termMonths := (s2.debtRecords y).termMonths
          owner := (s2.debtRecords y).owner
          creationDate := (s2.debtRecords y).creationDate
          isVerified := (s2.debtRecords y).isVerified
          decryptedAmount := (s2.debtRecords y).decryptedAmount }) ∧
    ((sZv.debtRecords "z").decryptedAmount = (sZu.debtRecords "z").decryptedAmount ∧
      (sZu.debtRecords "z").isVerified = false ∧
      (sZv.debtRecords "z").isVerified = true) := by
  have hok : createDebtRecord env s id e q r t o n =
      .ok
        { debtRecords := fun k =>
            if k = id then
              { debtId := id
                encryptedAmount := EU32.ext e q
                interestRate := r
                termMonths := t
                owner := o
                creationDate := n
                decryptedAmount := 0
                isVerified := false }
            else s.debtRecords k
          debtIds := s.debtIds ++ [id]
          events := s.events ++ [Event.debtRecordCreated id o] } := by
    unfold createDebtRecord
    rw [if_neg (by simp [hnew]), if_neg (by simp [hinit])]
  refine ⟨?_, ?_, ?_, ?_⟩
  · simp [step, hok]
  · simp [step, hok]
  · intro s2 y hy
    unfold getDebtRecord
    rw [if_neg hy]
  · exact ⟨by decide, by decide, by decide⟩

/-- Witness for C10: creating `"w"` on the empty registry yields
`decryptedAmount = 0`, `verified = false`, and reading `"z"` in the
unverified state returns the zero amount with `verified = false`. -/
theorem decryptedAmount_plain_zero_witness :
    ((step envAll (Op.create "w" 4 4 10 12 5 100) initialState).debtRecords
        "w").decryptedAmount = 0 ∧
    ((step envAll (Op.create "w" 4 4 10 12 5 100) initialState).debtRecords
        "w").isVerified = false ∧
    getDebtRecord sZu "z" =
      Except.ok
        { debtId := "z"
          interestRate := 10
          termMonths := 12
          owner := 5
          creationDate := 100
          isVerified := false
          decryptedAmount := 0 } :=
  have h := decryptedAmount_plain_zero envAll initialState "w" 4 4 10 12 5 100
    (by decide) (by decide)
  ⟨h.1, h.2.1, h.2.2.1 sZu "z" (by decide)⟩

end DebtFHE
